import Mathlib

attribute [local semireducible] Rat.add Rat.mul Rat.sub Rat.inv

/-!
Shallow embedding of the `Oscilloscope` class of
`oscilloscope-interface.py` (the instrument command/response client and
waveform decoder).  The transport (pyvisa) is modelled by a `Device`
record holding the reply the instrument gives to each query the code
issues, plus an abstract `openResource` function standing for
`pyvisa.ResourceManager.open_resource`.  Every command or query the code
sends is recorded in an event trace.  Python floats are modelled by `ℚ`:
every numeric computation the claims mention (the affine voltage map,
the time ramp, truncation) is exact on the values involved.  Raised
Python exceptions are modelled as `Except.error` values of the spec's
error taxonomy (`NotConnectedError`, `ProtocolError`, `ArithmeticError`,
`ConnectionError`); `print` calls are console logging with no effect on
state or transport and are not modelled.
-/

/-- Python whitespace characters recognised by `str.strip()` /
`float()` (the common ones; enough for the replies modelled here). -/
def isSpaceChar (c : Char) : Bool :=
  c = ' ' || c = '\t' || c = '\n' || c = '\r'

/-- Model of `str.strip()`: drop leading and trailing whitespace. -/
def stripChars (cs : List Char) : List Char :=
  ((cs.dropWhile isSpaceChar).reverse.dropWhile isSpaceChar).reverse

/-- Model of `str.split(',')`: split on every comma; `""` gives `[""]`,
`"a,"` gives `["a", ""]`. -/
def splitComma : List Char → List (List Char)
  | [] => [[]]
  | c :: rest =>
    let r := splitComma rest
    if c = ',' then [] :: r
    else
      match r with
      | [] => [[c]]
      | g :: gs => (c :: g) :: gs

/-- Consume leading decimal digits, accumulating their value and count. -/
def parseNatDigits : List Char → ℕ → ℕ → ℕ × ℕ × List Char
  | [], acc, cnt => (acc, cnt, [])
  | c :: rest, acc, cnt =>
    if c.isDigit then parseNatDigits rest (10 * acc + (c.toNat - 48)) (cnt + 1)
    else (acc, cnt, c :: rest)

/-- Consume an optional sign; `true` means negative. -/
def parseSign : List Char → Bool × List Char
  | '-' :: rest => (true, rest)
  | '+' :: rest => (false, rest)
  | cs => (false, cs)

/-- Exponent part of a Python float literal: optional sign then at least
one digit, consuming the whole remaining input. -/
def parseExpPart (mant : ℚ) (cs : List Char) : Option ℚ :=
  let (eneg, cs1) := parseSign cs
  let (ev, ec, cs2) := parseNatDigits cs1 0 0
  if ec = 0 then none
  else
    match cs2 with
    | [] => some (if eneg then mant / (10 : ℚ) ^ ev else mant * (10 : ℚ) ^ ev)
    | _ => none

/-- Core of Python's `float(string)` on an already-stripped character
list: optional sign, digits with an optional fractional part (at least
one digit overall), optional `e`/`E` exponent.  Returns the exact
rational value, `none` where Python raises `ValueError`. -/
def parseFloatCore (cs : List Char) : Option ℚ :=
  let (neg, cs1) := parseSign cs
  let (ip, ic, cs2) := parseNatDigits cs1 0 0
  let (fp, fc, cs3) :=
    match cs2 with
    | '.' :: rest => parseNatDigits rest 0 0
    | _ => (0, 0, cs2)
  if ic + fc = 0 then none
  else
    let mant : ℚ :=
      (if neg then (-1 : ℚ) else 1) * ((ip : ℚ) + (fp : ℚ) / (10 : ℚ) ^ fc)
    match cs3 with
    | [] => some mant
    | 'e' :: rest => parseExpPart mant rest
    | 'E' :: rest => parseExpPart mant rest
    | _ => none

/-- Python's `float()` builtin on a field (strips surrounding
whitespace itself). -/
def pyFloatChars (cs : List Char) : Option ℚ :=
  parseFloatCore (stripChars cs)

/-- Python's `float()` builtin on a whole string. -/
def pyFloat (s : String) : Option ℚ :=
  pyFloatChars s.data

/-- Python's `int()` applied to a float value: truncation toward zero
(`int(float("2.7")) = 2`, `int(float("-2.7")) = -2`). -/
def pyTrunc (q : ℚ) : ℤ :=
  q.num.tdiv q.den

deriving instance DecidableEq for Except

/-- The replies the connected instrument gives to the queries the code
issues.  `idn` is `Except`-valued because the `*IDN?` round trip itself
can fail (timeout / transport error) inside `connect`. -/
structure Device where
  idn : Except String String
  formatReply : String
  preamble : String
  dataBlock : List ℕ
  scalReply : String
  probReply : String
  deriving DecidableEq

/-- State of one `Oscilloscope` object: `inst = none` is the
disconnected state (`self.inst = None`), `inst = some dev` the
connected state holding the open handle. -/
structure Oscilloscope where
  resource_name : String
  inst : Option Device
  deriving DecidableEq

/-- One interaction with the transport, in the order the code performs
them.  `queryFailed` records a query round trip that raised. -/
inductive Event where
  | write (cmd : String)
  | query (cmd : String) (reply : String)
  | queryBinary (cmd : String) (reply : List ℕ)
  | queryFailed (cmd : String)
  deriving DecidableEq

/-- The spec's error taxonomy, as the shallow embedding of the
exceptions the Python code raises: `notConnected` for the explicit
"Oscilloscope not connected." raise and for the `AttributeError` from
calling a method on `self.inst = None`; `protocolError` for the
`ValueError` from tuple unpacking or `float()` on a malformed reply;
`arithmeticError` for `ZeroDivisionError`; `connectionError` for a
failure to open the resource or to complete the identity query. -/
inductive OscError where
  | notConnected
  | protocolError
  | arithmeticError
  | connectionError (msg : String)
  deriving DecidableEq

/-- Embedding of `Oscilloscope.connect`: `self.inst = self.rm.open_resource(...)`,
then `idn = self.inst.query('*IDN?')`, then prints the identity.  The
returned triple is (post-state, result, trace).  The Python function is
annotated `-> None`: on success the call's value is `none` (Python's
`None`), never the identity string.  Note that when the open succeeds
but the identity query raises, the assignment to `self.inst` has
already happened, so the post-state retains the open handle. -/
def connect (openResource : String → Except String Device)
    (osc : Oscilloscope) :
    Oscilloscope × Except OscError (Option String) × List Event :=
  match openResource osc.resource_name with
  | .error e => (osc, .error (.connectionError e), [])
  | .ok dev =>
    match dev.idn with
    | .error e =>
      ({ osc with inst := some dev }, .error (.connectionError e),
        [.queryFailed "*IDN?"])
    | .ok idnStr =>
      ({ osc with inst := some dev }, .ok none, [.query "*IDN?" idnStr])

/-- Embedding of `Oscilloscope.disconnect`: closes and clears the handle when it is
open, does nothing otherwise.  Total (never raises). -/
def disconnect (osc : Oscilloscope) : Oscilloscope :=
  match osc.inst with
  | none => osc
  | some _ => { osc with inst := none }

/-- Embedding of `Oscilloscope.set_channel`: a single `self.inst.write`.  On a
`None` handle the attribute access raises before anything is sent. -/
def set_channel (osc : Oscilloscope) (channel : ℕ) :
    Except OscError Unit × List Event :=
  match osc.inst with
  | none => (.error .notConnected, [])
  | some _ => (.ok (), [.write s!":WAV:SOUR CHAN{channel}"])

/-- Embedding of `Oscilloscope.set_timebase`. -/
def set_timebase (osc : Oscilloscope) (time_per_div : ℚ) :
    Except OscError Unit × List Event :=
  match osc.inst with
  | none => (.error .notConnected, [])
  | some _ => (.ok (), [.write s!":TIM:SCAL {time_per_div}"])

/-- Embedding of `Oscilloscope.set_voltage_scale`. -/
def set_voltage_scale (osc : Oscilloscope) (channel : ℕ)
    (volts_per_div : ℚ) : Except OscError Unit × List Event :=
  match osc.inst with
  | none => (.error .notConnected, [])
  | some _ => (.ok (), [.write s!":CHAN{channel}:SCAL {volts_per_div}"])

/-- Embedding of `Oscilloscope.set_trigger`: four sequential writes. -/
def set_trigger (osc : Oscilloscope) (mode : String) (source : ℕ)
    (slope : String) (level : ℚ) : Except OscError Unit × List Event :=
  match osc.inst with
  | none => (.error .notConnected, [])
  | some _ =>
    (.ok (),
      [.write s!":TRIG:MODE {mode}",
       .write s!":TRIG:EDGE:SOUR CHAN{source}",
       .write s!":TRIG:EDGE:SLOP {slope}",
       .write s!":TRIG:LEV CHAN{source},{level}"])

/-- Voltage conversion of `get_waveform`:
`adjusted_vertical_scale = vertical_scale / probe_attenuation` and
`voltage = ((data - 130.0) / 25.0) * adjusted_vertical_scale`
elementwise over the raw byte values. -/
def decodeVoltage (data : List ℕ) (vertical_scale probe_attenuation : ℚ) :
    List ℚ :=
  let adjusted_vertical_scale := vertical_scale / probe_attenuation
  data.map (fun d : ℕ => (((d : ℕ) : ℚ) - 130) / 25 * adjusted_vertical_scale)

/-- Time array of `get_waveform`:
`time = (np.arange(len(data)) - x_reference) * x_increment + x_origin`. -/
def decodeTime (n : ℕ) (x_reference : ℤ) (x_increment x_origin : ℚ) :
    List ℚ :=
  (List.range n).map
    (fun i : ℕ => (((i : ℕ) : ℚ) - (x_reference : ℚ)) * x_increment + x_origin)

/-- The comma-split field list of the stripped preamble reply:
`preamble_fields = preamble.strip().split(',')`. -/
def preFields (dev : Device) : List (List Char) :=
  splitComma (stripChars dev.preamble.data)

/-- Transport interactions of `get_waveform` up to and including the
preamble query (three writes, the discarded format echo, the preamble). -/
def wavePreTrace (dev : Device) (channel : ℕ) : List Event :=
  [.write s!":WAV:SOUR CHAN{channel}",
   .write ":WAV:FORM BYTE",
   .write ":WAV:MODE NORMAL",
   .query ":WAV:FORM?" dev.formatReply,
   .query ":WAV:PRE?" dev.preamble]

/-- Transport interactions of `get_waveform` up to and including the
binary data query. -/
def waveDataTrace (dev : Device) (channel : ℕ) : List Event :=
  wavePreTrace dev channel ++ [.queryBinary ":WAV:DATA?" dev.dataBlock]

/-- Transport interactions of `get_waveform` up to and including the
vertical-scale query. -/
def waveScalTrace (dev : Device) (channel : ℕ) : List Event :=
  waveDataTrace dev channel ++ [.query s!":CHAN{channel}:SCAL?" dev.scalReply]

/-- All transport interactions of a complete `get_waveform` call, in
source order. -/
def waveFullTrace (dev : Device) (channel : ℕ) : List Event :=
  waveScalTrace dev channel ++ [.query s!":CHAN{channel}:PROB?" dev.probReply]

/-- Embedding of `Oscilloscope.get_waveform`, step by step in source
order: the
not-connected check, the three writes, the format echo query, the
preamble query, the split on `,` of the stripped preamble and the
unpack of its first 10 fields (raises when fewer than 10), the
`float()` conversions of fields 4–9 (fields 0–3 — format_code,
type_code, points, count — are kept as strings and never parsed), the
binary data query, the scale and probe queries with their `float()`
conversions, the division by `probe_attenuation` (raises
`ZeroDivisionError` when it is zero), and the voltage / time maps.
Returns the result (`.ok (time, voltage)` or the raised error) together
with the trace of transport interactions that happened before the
return or the raise. -/
def get_waveform (osc : Oscilloscope) (channel : ℕ) :
    Except OscError (List ℚ × List ℚ) × List Event :=
  match osc.inst with
  | none => (.error .notConnected, [])
  | some dev =>
    let preamble_fields := preFields dev
    if preamble_fields.length < 10 then
      (.error .protocolError, wavePreTrace dev channel)
    else
      match pyFloatChars (preamble_fields.getD 4 []),
          pyFloatChars (preamble_fields.getD 5 []),
          pyFloatChars (preamble_fields.getD 6 []),
          pyFloatChars (preamble_fields.getD 7 []),
          pyFloatChars (preamble_fields.getD 8 []),
          pyFloatChars (preamble_fields.getD 9 []) with
      | some x_increment, some x_origin, some x_reference_raw,
          some y_increment, some y_origin, some y_reference_raw =>
        let x_reference : ℤ := pyTrunc x_reference_raw
        let _y_reference : ℤ := pyTrunc y_reference_raw
        let _ := y_increment
        let _ := y_origin
        let data := dev.dataBlock
        match pyFloat dev.scalReply with
        | none => (.error .protocolError, waveScalTrace dev channel)
        | some vertical_scale =>
          match pyFloat dev.probReply with
          | none => (.error .protocolError, waveFullTrace dev channel)
          | some probe_attenuation =>
            if probe_attenuation = 0 then
              (.error .arithmeticError, waveFullTrace dev channel)
            else
              let voltage := decodeVoltage data vertical_scale probe_attenuation
              let time := decodeTime data.length x_reference x_increment x_origin
              (.ok (time, voltage), waveFullTrace dev channel)
      | _, _, _, _, _, _ => (.error .protocolError, wavePreTrace dev channel)

/-- A well-behaved instrument: the concrete scenario of the spec
(`raw = [130, 155, 105]`, `x_increment = 1e-6`, `x_origin = 0`,
`x_reference = 0`, `vertical_scale = 1.0`, `probe_attenuation = 1.0`). -/
def devGood : Device :=
  { idn := .ok "RIGOL TECHNOLOGIES,DS1104Z,XX,1.0"
    formatReply := "BYTE"
    preamble := "0,0,3,1,1e-6,0,0,1,0,0"
    dataBlock := [130, 155, 105]
    scalReply := "1.0"
    probReply := "1.0" }

/-- An instrument whose preamble reply has only 7 comma-separated
fields. -/
def devShortPre : Device :=
  { devGood with preamble := "0,0,3,1,1e-6,0,0" }

/-- An instrument whose preamble's x_increment field is not numeric. -/
def devBadField : Device :=
  { devGood with preamble := "0,0,3,1,abc,0,0,1,0,0" }

/-- An instrument reporting probe attenuation 0. -/
def devZeroProb : Device :=
  { devGood with probReply := "0.0" }

/-- An instrument whose preamble's x_reference field is the fractional
string "2.7". -/
def devFracRef : Device :=
  { devGood with preamble := "0,0,3,1,1e-6,0,2.7,1,0,0" }

/-- An instrument whose preamble announces 999 points while the raw
block has only 3 samples. -/
def devMismatch : Device :=
  { devGood with preamble := "0,0,999,1,1e-6,0,0,1,0,0" }

/-- An instrument whose `*IDN?` round trip fails (e.g. a timeout). -/
def devIdnFail : Device :=
  { devGood with idn := .error "VI_ERROR_TMO" }

/-- A session object that is connected to `devGood`. -/
def oscGood : Oscilloscope :=
  { resource_name := "USB0::0x1AB1::0x0517::INSTR", inst := some devGood }

/-- A session object in the disconnected state (`self.inst = None`). -/
def oscDisc : Oscilloscope :=
  { resource_name := "USB0::0x1AB1::0x0517::INSTR", inst := none }

/-- A transport whose `open_resource` always succeeds with the given
device. -/
def openOk (dev : Device) : String → Except String Device :=
  fun _ => .ok dev

/-- A transport whose `open_resource` always fails. -/
def openFail : String → Except String Device :=
  fun _ => .error "VI_ERROR_RSRC_NFOUND"

/-- A session connected to `devShortPre`. -/
def oscShortPre : Oscilloscope :=
  { resource_name := "USB0", inst := some devShortPre }

/-- A session connected to `devBadField`. -/
def oscBadField : Oscilloscope :=
  { resource_name := "USB0", inst := some devBadField }

/-- A session connected to `devZeroProb`. -/
def oscZeroProb : Oscilloscope :=
  { resource_name := "USB0", inst := some devZeroProb }

/-- A session connected to `devFracRef`. -/
def oscFracRef : Oscilloscope :=
  { resource_name := "USB0", inst := some devFracRef }

/-- A session connected to `devMismatch`. -/
def oscMismatch : Oscilloscope :=
  { resource_name := "USB0", inst := some devMismatch }

/-- Indexing a mapped list below its length applies the function to the
corresponding element; the defaults are irrelevant. -/
theorem getD_map_of_lt {α β : Type} (f : α → β) (l : List α) (i : ℕ)
    (d : β) (e : α) (h : i < l.length) :
    (l.map f).getD i d = f (l.getD i e) := by
  rw [List.getD_eq_getElem?_getD, List.getElem?_map,
    List.getElem?_eq_getElem h, List.getD_eq_getElem?_getD,
    List.getElem?_eq_getElem h]
  rfl

/-- Forward characterization of a successful `get_waveform` call: when
the handle is open, the preamble has at least 10 fields whose numeric
fields all parse, the scale and probe replies parse, and the probe
attenuation is nonzero, the call performs the full protocol and returns
the decoded time and voltage sequences. -/
theorem get_waveform_ok (osc : Oscilloscope) (dev : Device) (channel : ℕ)
    (xi xo xr yi yo yr vs pa : ℚ)
    (hinst : osc.inst = some dev)
    (hlen : ¬ (preFields dev).length < 10)
    (h4 : pyFloatChars ((preFields dev).getD 4 []) = some xi)
    (h5 : pyFloatChars ((preFields dev).getD 5 []) = some xo)
    (h6 : pyFloatChars ((preFields dev).getD 6 []) = some xr)
    (h7 : pyFloatChars ((preFields dev).getD 7 []) = some yi)
    (h8 : pyFloatChars ((preFields dev).getD 8 []) = some yo)
    (h9 : pyFloatChars ((preFields dev).getD 9 []) = some yr)
    (hs : pyFloat dev.scalReply = some vs)
    (hp : pyFloat dev.probReply = some pa)
    (hpa : ¬ pa = 0) :
    get_waveform osc channel =
      (.ok (decodeTime dev.dataBlock.length (pyTrunc xr) xi xo,
            decodeVoltage dev.dataBlock vs pa),
       waveFullTrace dev channel) := by
  rw [get_waveform, hinst]
  simp only [h4, h5, h6, h7, h8, h9, hs, hp, if_neg hlen, if_neg hpa]

set_option maxHeartbeats 1600000 in
/-- On any successful `get_waveform` call the recorded transport trace
is exactly the full protocol trace. -/
theorem get_waveform_ok_trace (osc : Oscilloscope) (dev : Device)
    (channel : ℕ) (r : List ℚ × List ℚ) (tr : List Event)
    (hinst : osc.inst = some dev)
    (h : get_waveform osc channel = (.ok r, tr)) :
    tr = waveFullTrace dev channel := by
  rw [get_waveform, hinst] at h
  dsimp only at h
  repeat' split at h
  all_goals injection h with h1 h2
  all_goals first
    | exact Except.noConfusion h1
    | exact h2.symm

/-- C1: for every raw byte value d at index i the decoder computes
voltage[i] = ((d - 130.0) / 25.0) * (vertical_scale / probe_attenuation)
and time[i] = (i - x_reference) * x_increment + x_origin; on
raw = [130, 155, 105] with x_increment = 1e-6, x_origin = 0,
x_reference = 0, vertical_scale = 1, probe_attenuation = 1 the result
is voltage = [0, 1, -1] and time = [0, 1e-6, 2e-6]. -/
theorem C1_decoder_affine_formula :
    (∀ (data : List ℕ) (vs pa : ℚ) (i : ℕ), i < data.length →
        (decodeVoltage data vs pa).getD i 0 =
          (((data.getD i 0 : ℕ) : ℚ) - 130) / 25 * (vs / pa)) ∧
    (∀ (n : ℕ) (xr : ℤ) (xi xo : ℚ) (i : ℕ), i < n →
        (decodeTime n xr xi xo).getD i 0 = ((i : ℚ) - (xr : ℚ)) * xi + xo) ∧
    (get_waveform oscGood 1).1 =
      .ok ([0, 1/1000000, 2/1000000], [0, 1, -1]) := by
  refine ⟨?_, ?_, by decide⟩
  · intro data vs pa i h
    simp only [decodeVoltage]
    rw [getD_map_of_lt _ _ _ _ 0 h]
  · intro n xr xi xo i h
    simp only [decodeTime]
    rw [getD_map_of_lt _ _ _ _ 0 (by simpa using h),
      List.getD_eq_getElem?_getD, List.getElem?_range h]
    rfl

/-- Witness for C1 at raw = [130, 155, 105], i = 1 for voltage and
i = 2 for time. -/
theorem C1_decoder_affine_formula_witness :
    (decodeVoltage [130, 155, 105] 1 1).getD 1 0 =
      ((([130, 155, 105].getD 1 0 : ℕ) : ℚ) - 130) / 25 * ((1 : ℚ) / 1) ∧
    (decodeTime 3 0 (1/1000000) 0).getD 2 0 =
      ((2 : ℚ) - ((0 : ℤ) : ℚ)) * (1/1000000) + 0 :=
  ⟨C1_decoder_affine_formula.1 [130, 155, 105] 1 1 1 (by decide),
   C1_decoder_affine_formula.2.1 3 0 (1/1000000) 0 2 (by decide)⟩

/-- C2: for every raw sample block and every valid preamble (and valid
scale/attenuation replies), decoding returns time and voltage sequences
both exactly of length len(raw); nothing in the hypotheses relates the
preamble's point_count field (field 2, never parsed) to len(raw), so
no cross-check is performed. -/
theorem C2_output_lengths (osc : Oscilloscope) (dev : Device) (channel : ℕ)
    (xi xo xr yi yo yr vs pa : ℚ)
    (hinst : osc.inst = some dev)
    (hlen : ¬ (preFields dev).length < 10)
    (h4 : pyFloatChars ((preFields dev).getD 4 []) = some xi)
    (h5 : pyFloatChars ((preFields dev).getD 5 []) = some xo)
    (h6 : pyFloatChars ((preFields dev).getD 6 []) = some xr)
    (h7 : pyFloatChars ((preFields dev).getD 7 []) = some yi)
    (h8 : pyFloatChars ((preFields dev).getD 8 []) = some yo)
    (h9 : pyFloatChars ((preFields dev).getD 9 []) = some yr)
    (hs : pyFloat dev.scalReply = some vs)
    (hp : pyFloat dev.probReply = some pa)
    (hpa : ¬ pa = 0) :
    ∃ t v, get_waveform osc channel = (.ok (t, v), waveFullTrace dev channel) ∧
      t.length = dev.dataBlock.length ∧ v.length = dev.dataBlock.length := by
  refine ⟨_, _,
    get_waveform_ok osc dev channel xi xo xr yi yo yr vs pa hinst hlen
      h4 h5 h6 h7 h8 h9 hs hp hpa, ?_, ?_⟩
  · simp [decodeTime]
  · simp [decodeVoltage]

/-- Witness for C2: with point_count field "3" and 3 raw samples both
outputs have length 3; with point_count field "999" and 3 raw samples
decoding still succeeds with both outputs of length 3 (no cross-check). -/
theorem C2_output_lengths_witness :
    (∃ t v, get_waveform oscGood 1 = (.ok (t, v), waveFullTrace devGood 1) ∧
      t.length = 3 ∧ v.length = 3) ∧
    (∃ t v, get_waveform oscMismatch 1 =
        (.ok (t, v), waveFullTrace devMismatch 1) ∧
      t.length = 3 ∧ v.length = 3) :=
  ⟨C2_output_lengths oscGood devGood 1 (1/1000000) 0 0 1 0 0 1 1 rfl
      (by decide) (by decide) (by decide) (by decide) (by decide)
      (by decide) (by decide) (by decide) (by decide) (by decide),
   C2_output_lengths oscMismatch devMismatch 1 (1/1000000) 0 0 1 0 0 1 1 rfl
      (by decide) (by decide) (by decide) (by decide) (by decide)
      (by decide) (by decide) (by decide) (by decide) (by decide)⟩

/-- C3: for every preamble reply whose comma-split field list has fewer
than 10 fields, or in which any numeric field (fields 4-9, the ones the
code converts with float()) fails to parse, get_waveform fails with
ProtocolError, with no waveform output; the trace stops at the preamble
query. -/
theorem C3_malformed_preamble (osc : Oscilloscope) (dev : Device)
    (channel : ℕ) (hinst : osc.inst = some dev)
    (hbad : (preFields dev).length < 10 ∨
      pyFloatChars ((preFields dev).getD 4 []) = none ∨
      pyFloatChars ((preFields dev).getD 5 []) = none ∨
      pyFloatChars ((preFields dev).getD 6 []) = none ∨
      pyFloatChars ((preFields dev).getD 7 []) = none ∨
      pyFloatChars ((preFields dev).getD 8 []) = none ∨
      pyFloatChars ((preFields dev).getD 9 []) = none) :
    get_waveform osc channel =
      (.error .protocolError, wavePreTrace dev channel) := by
  rw [get_waveform, hinst]
  dsimp only
  by_cases hlen : (preFields dev).length < 10
  · rw [if_pos hlen]
  · rw [if_neg hlen]
    rcases h4 : pyFloatChars ((preFields dev).getD 4 []) with _ | x4
    · rfl
    rcases h5 : pyFloatChars ((preFields dev).getD 5 []) with _ | x5
    · rfl
    rcases h6 : pyFloatChars ((preFields dev).getD 6 []) with _ | x6
    · rfl
    rcases h7 : pyFloatChars ((preFields dev).getD 7 []) with _ | x7
    · rfl
    rcases h8 : pyFloatChars ((preFields dev).getD 8 []) with _ | x8
    · rfl
    rcases h9 : pyFloatChars ((preFields dev).getD 9 []) with _ | x9
    · rfl
    rcases hbad with hb | hb | hb | hb | hb | hb | hb <;> simp_all

/-- Witness for C3: a 7-field preamble reply and a preamble whose
x_increment field is "abc" both fail with ProtocolError. -/
theorem C3_malformed_preamble_witness :
    get_waveform oscShortPre 1 =
      (.error .protocolError, wavePreTrace devShortPre 1) ∧
    get_waveform oscBadField 1 =
      (.error .protocolError, wavePreTrace devBadField 1) :=
  ⟨C3_malformed_preamble oscShortPre devShortPre 1 rfl (.inl (by decide)),
   C3_malformed_preamble oscBadField devBadField 1 rfl
     (.inr (.inl (by decide)))⟩

/-- C4: every configuration or query operation invoked while the
session is disconnected (inst = None) fails with NotConnectedError and
sends zero commands to the transport (empty trace). -/
theorem C4_requires_connection (osc : Oscilloscope) (h : osc.inst = none) :
    (∀ channel, set_channel osc channel = (.error .notConnected, [])) ∧
    (∀ t, set_timebase osc t = (.error .notConnected, [])) ∧
    (∀ channel v,
      set_voltage_scale osc channel v = (.error .notConnected, [])) ∧
    (∀ m src sl lv,
      set_trigger osc m src sl lv = (.error .notConnected, [])) ∧
    (∀ channel, get_waveform osc channel = (.error .notConnected, [])) := by
  refine ⟨fun _ => ?_, fun _ => ?_, fun _ _ => ?_, fun _ _ _ _ => ?_,
    fun _ => ?_⟩ <;>
  simp [set_channel, set_timebase, set_voltage_scale, set_trigger,
    get_waveform, h]

/-- Witness for C4: immediately after a connect followed by a
disconnect, set_trigger and get_waveform fail with NotConnectedError
and an empty transport trace. -/
theorem C4_requires_connection_witness :
    set_trigger (disconnect (connect (openOk devGood) oscDisc).1)
        "EDGE" 1 "POS" (3/2) = (.error .notConnected, []) ∧
    get_waveform (disconnect (connect (openOk devGood) oscDisc).1) 1 =
      (.error .notConnected, []) :=
  ⟨(C4_requires_connection _ (by decide)).2.2.2.1 "EDGE" 1 "POS" (3/2),
   (C4_requires_connection _ (by decide)).2.2.2.2 1⟩

/-- C5 counterexample: a connect call whose open succeeds but whose
identity query errors fails, yet the session retains the open handle
(inst = some devIdnFail, not None), contradicting "the session remains
in the Disconnected state (no open handle retained)". -/
theorem C5_connect_failure_counterexample :
    (connect (openOk devIdnFail) oscDisc).2.1 =
      .error (.connectionError "VI_ERROR_TMO") ∧
    (connect (openOk devIdnFail) oscDisc).1.inst = some devIdnFail ∧
    some devIdnFail ≠ (none : Option Device) :=
  ⟨by decide, by decide, by decide⟩

/-- C5 amended: a connect call that fails because the transport cannot
open the resource fails with ConnectionError and leaves the session
state unchanged; a connect call whose identity query errors after a
successful open fails with ConnectionError but retains the opened
handle in the session state. -/
theorem C5_connect_failure_amended (osc : Oscilloscope)
    (openResource : String → Except String Device) :
    (∀ e, openResource osc.resource_name = .error e →
        connect openResource osc = (osc, .error (.connectionError e), [])) ∧
    (∀ dev e, openResource osc.resource_name = .ok dev →
        dev.idn = .error e →
        connect openResource osc =
          ({ osc with inst := some dev }, .error (.connectionError e),
            [.queryFailed "*IDN?"])) := by
  constructor
  · intro e he
    rw [connect, he]
  · intro dev e ho hi
    rw [connect, ho]
    dsimp only
    rw [hi]

/-- Witness for C5 amended: both failure modes at concrete transports. -/
theorem C5_connect_failure_amended_witness :
    connect openFail oscDisc =
      (oscDisc, .error (.connectionError "VI_ERROR_RSRC_NFOUND"), []) ∧
    connect (openOk devIdnFail) oscDisc =
      ({ oscDisc with inst := some devIdnFail },
        .error (.connectionError "VI_ERROR_TMO"), [.queryFailed "*IDN?"]) :=
  ⟨(C5_connect_failure_amended oscDisc openFail).1 _ rfl,
   (C5_connect_failure_amended oscDisc (openOk devIdnFail)).2
     devIdnFail _ rfl rfl⟩

/-- C6 counterexample: a successful connect against a device whose
identity reply is "RIGOL TECHNOLOGIES,DS1104Z,XX,1.0" returns None
(the Python function is annotated -> None and only prints the
identity), not the identity string, contradicting "returns the
identity string received from the device as the call's return value". -/
theorem C6_connect_returns_identity_counterexample :
    devGood.idn = .ok "RIGOL TECHNOLOGIES,DS1104Z,XX,1.0" ∧
    (connect (openOk devGood) oscDisc).2.1 = .ok none ∧
    (.ok none : Except OscError (Option String)) ≠
      .ok (some "RIGOL TECHNOLOGIES,DS1104Z,XX,1.0") :=
  ⟨rfl, by decide, by decide⟩

/-- C6 amended: every successful connect call opens the handle, issues
exactly the identity query *IDN?, and logs the received identity
string; the call's return value is None. -/
theorem C6_connect_logs_identity (osc : Oscilloscope)
    (openResource : String → Except String Device) (dev : Device)
    (idnStr : String)
    (ho : openResource osc.resource_name = .ok dev)
    (hi : dev.idn = .ok idnStr) :
    connect openResource osc =
      ({ osc with inst := some dev }, .ok none, [.query "*IDN?" idnStr]) := by
  rw [connect, ho]
  dsimp only
  rw [hi]

/-- Witness for C6 amended at a concrete device. -/
theorem C6_connect_logs_identity_witness :
    connect (openOk devGood) oscDisc =
      ({ oscDisc with inst := some devGood }, .ok none,
        [.query "*IDN?" "RIGOL TECHNOLOGIES,DS1104Z,XX,1.0"]) :=
  C6_connect_logs_identity oscDisc (openOk devGood) devGood _ rfl rfl

/-- C7: on every successful get_waveform call the transport
interactions occur in exactly this order: source select, format and
mode writes, discarded format echo query, preamble query, binary data
query, then the vertical-scale and probe-attenuation scalar queries. -/
theorem C7_transport_order (osc : Oscilloscope) (dev : Device)
    (channel : ℕ) (r : List ℚ × List ℚ) (tr : List Event)
    (hinst : osc.inst = some dev)
    (h : get_waveform osc channel = (.ok r, tr)) :
    tr = [.write s!":WAV:SOUR CHAN{channel}",
          .write ":WAV:FORM BYTE",
          .write ":WAV:MODE NORMAL",
          .query ":WAV:FORM?" dev.formatReply,
          .query ":WAV:PRE?" dev.preamble,
          .queryBinary ":WAV:DATA?" dev.dataBlock,
          .query s!":CHAN{channel}:SCAL?" dev.scalReply,
          .query s!":CHAN{channel}:PROB?" dev.probReply] := by
  rw [get_waveform_ok_trace osc dev channel r tr hinst h]
  simp [waveFullTrace, waveScalTrace, waveDataTrace, wavePreTrace]

/-- Witness for C7 at a concrete successful call. -/
theorem C7_transport_order_witness :
    (get_waveform oscGood 1).2 =
      [.write ":WAV:SOUR CHAN1", .write ":WAV:FORM BYTE",
       .write ":WAV:MODE NORMAL", .query ":WAV:FORM?" "BYTE",
       .query ":WAV:PRE?" "0,0,3,1,1e-6,0,0,1,0,0",
       .queryBinary ":WAV:DATA?" [130, 155, 105],
       .query ":CHAN1:SCAL?" "1.0", .query ":CHAN1:PROB?" "1.0"] :=
  C7_transport_order oscGood devGood 1
    ([0, 1/1000000, 2/1000000], [0, 1, -1]) (get_waveform oscGood 1).2 rfl
    (by decide)

/-- C8: with probe_attenuation parsed as 0 the call fails with the
arithmetic error raised by the division vertical_scale /
probe_attenuation: all queries up to the probe query have happened
(full trace) and no voltage or time output is produced. -/
theorem C8_zero_attenuation_error (osc : Oscilloscope) (dev : Device)
    (channel : ℕ) (xi xo xr yi yo yr vs : ℚ)
    (hinst : osc.inst = some dev)
    (hlen : ¬ (preFields dev).length < 10)
    (h4 : pyFloatChars ((preFields dev).getD 4 []) = some xi)
    (h5 : pyFloatChars ((preFields dev).getD 5 []) = some xo)
    (h6 : pyFloatChars ((preFields dev).getD 6 []) = some xr)
    (h7 : pyFloatChars ((preFields dev).getD 7 []) = some yi)
    (h8 : pyFloatChars ((preFields dev).getD 8 []) = some yo)
    (h9 : pyFloatChars ((preFields dev).getD 9 []) = some yr)
    (hs : pyFloat dev.scalReply = some vs)
    (hp : pyFloat dev.probReply = some 0) :
    get_waveform osc channel =
      (.error .arithmeticError, waveFullTrace dev channel) := by
  rw [get_waveform, hinst]
  simp only [h4, h5, h6, h7, h8, h9, hs, hp, if_neg hlen, if_pos]

/-- Witness for C8: an instrument reporting probe attenuation "0.0". -/
theorem C8_zero_attenuation_error_witness :
    get_waveform oscZeroProb 1 =
      (.error .arithmeticError, waveFullTrace devZeroProb 1) :=
  C8_zero_attenuation_error oscZeroProb devZeroProb 1
    (1/1000000) 0 0 1 0 0 1 rfl (by decide) (by decide) (by decide)
    (by decide) (by decide) (by decide) (by decide) (by decide) (by decide)

/-- C9: disconnect is idempotent and never raises (it is a total
function on session states): from Disconnected it is a no-op, from
Connected it clears the handle, and a second disconnect leaves the
state of a single disconnect unchanged. -/
theorem C9_disconnect_idempotent (osc : Oscilloscope) :
    (osc.inst = none → disconnect osc = osc) ∧
    (∀ dev, osc.inst = some dev → (disconnect osc).inst = none) ∧
    disconnect (disconnect osc) = disconnect osc := by
  refine ⟨fun h => ?_, fun dev h => ?_, ?_⟩
  · simp [disconnect, h]
  · simp [disconnect, h]
  · rcases hi : osc.inst with _ | dev <;> simp [disconnect, hi]

/-- Witness for C9 at a disconnected and a connected session. -/
theorem C9_disconnect_idempotent_witness :
    disconnect oscDisc = oscDisc ∧ (disconnect oscGood).inst = none ∧
    disconnect (disconnect oscGood) = disconnect oscGood :=
  ⟨(C9_disconnect_idempotent oscDisc).1 rfl,
   (C9_disconnect_idempotent oscGood).2.1 devGood rfl,
   (C9_disconnect_idempotent oscGood).2.2⟩

/-- C10: the x_reference and y_reference preamble fields are parsed by
float conversion followed by truncation toward zero (int(float(s))), so
a preamble whose x_reference field parses to any rational q - for
instance the fractional string "2.7", which parses to 27/10 and
truncates to 2 - is accepted, and the truncated integer pyTrunc q is
what the time computation uses. -/
theorem C10_fractional_reference (osc : Oscilloscope) (dev : Device)
    (channel : ℕ) (xi xo q yi yo yr vs pa : ℚ)
    (hinst : osc.inst = some dev)
    (hlen : ¬ (preFields dev).length < 10)
    (h4 : pyFloatChars ((preFields dev).getD 4 []) = some xi)
    (h5 : pyFloatChars ((preFields dev).getD 5 []) = some xo)
    (h6 : pyFloatChars ((preFields dev).getD 6 []) = some q)
    (h7 : pyFloatChars ((preFields dev).getD 7 []) = some yi)
    (h8 : pyFloatChars ((preFields dev).getD 8 []) = some yo)
    (h9 : pyFloatChars ((preFields dev).getD 9 []) = some yr)
    (hs : pyFloat dev.scalReply = some vs)
    (hp : pyFloat dev.probReply = some pa)
    (hpa : ¬ pa = 0) :
    get_waveform osc channel =
      (.ok (decodeTime dev.dataBlock.length (pyTrunc q) xi xo,
            decodeVoltage dev.dataBlock vs pa),
       waveFullTrace dev channel) ∧
    pyFloat "2.7" = some (27/10) ∧ pyTrunc (27/10) = 2 :=
  ⟨get_waveform_ok osc dev channel xi xo q yi yo yr vs pa hinst hlen
      h4 h5 h6 h7 h8 h9 hs hp hpa, by decide, by decide⟩

/-- Witness for C10: a preamble whose x_reference field is "2.7" is
accepted and decoded with x_reference = 2. -/
theorem C10_fractional_reference_witness :
    get_waveform oscFracRef 1 =
      (.ok (decodeTime devFracRef.dataBlock.length (pyTrunc (27/10))
              (1/1000000) 0,
            decodeVoltage devFracRef.dataBlock 1 1),
       waveFullTrace devFracRef 1) ∧
    pyTrunc (27/10) = 2 :=
  ⟨(C10_fractional_reference oscFracRef devFracRef 1
      (1/1000000) 0 (27/10) 1 0 0 1 1 rfl (by decide) (by decide)
      (by decide) (by decide) (by decide) (by decide) (by decide)
      (by decide) (by decide) (by decide)).1,
   (C10_fractional_reference oscFracRef devFracRef 1
      (1/1000000) 0 (27/10) 1 0 0 1 1 rfl (by decide) (by decide)
      (by decide) (by decide) (by decide) (by decide) (by decide)
      (by decide) (by decide) (by decide)).2.2⟩
